import Mathlib

/-!
Shallow embedding of two modules of the repository:

* `llama_index/finetuning/openai/base.py` — the `OpenAIFinetuneEngine`
  orchestrator (dataset validation, file upload, job creation with a retry
  loop, job polling, finetuned-model retrieval);
* `llama_index/llms/azure_openai.py` — the `AzureOpenAI` deployment-routing
  wrapper (constructor checks, ambient environment validation, request
  keyword mapping).

External collaborators (the `openai` client library, the JSON dataset
validator, the filesystem) are modelled as oracles: records of functions
returning `Except`.  The job-creation oracle is indexed by the attempt
number, so that repeated calls inside the retry loop may observe different
server answers over time.  The unbounded `while True` retry loop is embedded
with explicit fuel: `none` means the loop did not terminate within the given
fuel.  Every operation additionally returns the list of externally visible
events it performed, in order, so that claims about "no network call
happened" or "slept 60 seconds between attempts" are statements about the
trace.
-/

/-- Exception classes raised by the embedded code or its collaborators.
`invalidRequestError` embeds `openai.error.InvalidRequestError` (the class
caught by the retry loop in `finetune`); `apiError` stands for any other
exception class coming from the remote API; `validationError` is the error
raised by the external dataset validator `validate_json`; `valueError`
embeds Python `ValueError` raised by the repository's own code;
`keyError` embeds Python `KeyError`. -/
inductive PyError where
  | invalidRequestError (msg : String)
  | apiError (msg : String)
  | validationError (msg : String)
  | valueError (msg : String)
  | keyError (key : String)
deriving Repr, DecidableEq

/-- Is the error an `openai.error.InvalidRequestError`?  This is exactly the
test the `except openai.error.InvalidRequestError:` clause of `finetune`
performs: it discriminates on the exception class only. -/
def PyError.isInvalidRequest : PyError → Bool
  | .invalidRequestError _ => true
  | _ => false

/-- Modelled from the spec: the transient server-side condition that the
uploaded file is not yet ready for use, described as "a specific invalid
request condition distinguishable from other invalid-request failures".
The provider signals it as an `InvalidRequestError` whose message says the
file is still being processed; nothing in `src` defines or tests this
predicate — the source catches the whole exception class. -/
def PyError.isFileNotReady : PyError → Bool
  | .invalidRequestError msg => msg = "File is still being processed"
  | _ => false

/-- The remote file object returned by `openai.File.create`; the code only
uses its `id` entry (`output["id"]`). -/
structure RemoteFile where
  id : String
deriving Repr, DecidableEq

/-- A snapshot of a remote finetuning job, as returned by
`openai.FineTuningJob.create` / `openai.FineTuningJob.retrieve`.  The code
reads its `id`, `status` and `fine_tuned_model` entries. -/
structure FineTuningJob where
  id : String
  status : String
  fine_tuned_model : Option String
deriving Repr, DecidableEq

/-- The state of an `OpenAIFinetuneEngine` instance: `base_model` and
`data_path` are set at construction and never written again; `start_job`
embeds the mutable `self._start_job` field (`None` initially unless a
`start_job_id` was resumed). -/
structure OpenAIFinetuneEngine where
  base_model : String
  data_path : String
  verbose : Bool
  start_job : Option FineTuningJob
deriving Repr, DecidableEq

/-- Externally visible actions performed by the orchestrator, in order:
`validateCall` is the (local, non-network) dataset validation;
`fileUpload` is the `openai.File.create` network call (with its `purpose`
and `user_provided_filename` arguments); `jobCreate` is the
`openai.FineTuningJob.create` network call; `sleepSecs` is `time.sleep`. -/
inductive FinetuneEvent where
  | validateCall (path : String)
  | fileUpload (path purpose fileName : String)
  | jobCreate (trainingFile model : String)
  | sleepSecs (n : Nat)
deriving Repr, DecidableEq

/-- The collaborator API used by the orchestrator.  `jobCreate` takes the
attempt number first, so the modelled server may answer differently on
successive attempts of the retry loop; the remaining arguments are the
`training_file` id and the `model` name.  `jobRetrieve` takes a job id. -/
structure FinetuneAPI where
  validate_json : String → Except PyError Unit
  fileCreate : String → Except PyError RemoteFile
  jobCreate : Nat → String → String → Except PyError FineTuningJob
  jobRetrieve : String → Except PyError FineTuningJob

/-- Characters of the final path component: scan the characters, starting a
fresh accumulator after every `/`. -/
def basenameChars : List Char → List Char → List Char
  | [], acc => acc.reverse
  | c :: cs, acc => if c = '/' then basenameChars cs [] else basenameChars cs (c :: acc)

/-- `os.path.basename`: the final path component. -/
def basename (p : String) : String :=
  ⟨basenameChars p.data []⟩

/-- The `while True` job-launch loop of `finetune` (lines 71-80 of
`base.py`), with explicit fuel and starting attempt number `k`.  One
iteration calls `jobCreate`; on success it stops with the job; on
`InvalidRequestError` it sleeps 60 seconds and retries; any other error
stops the loop immediately with that error.  `none` means the fuel ran out
before the loop stopped (the real loop is unbounded). -/
def launchLoop (api : FinetuneAPI) (fileId model : String) :
    Nat → Nat → Option (Except PyError FineTuningJob × List FinetuneEvent)
  | 0, _ => none
  | fuel + 1, k =>
    match api.jobCreate k fileId model with
    | .ok job => some (.ok job, [.jobCreate fileId model])
    | .error e =>
      if e.isInvalidRequest then
        match launchLoop api fileId model fuel (k + 1) with
        | none => none
        | some (r, tr) => some (r, .jobCreate fileId model :: .sleepSecs 60 :: tr)
      else
        some (.error e, [.jobCreate fileId model])

/-- `OpenAIFinetuneEngine.finetune`: validate the dataset, upload it
(purpose `"fine-tune"`, carrying the base name of the path), then launch the
job through the retry loop; on success store the returned job snapshot in
`start_job`.  Returns the outcome, the resulting engine state and the event
trace; `none` when the retry loop did not stop within `fuel` attempts. -/
def finetune (api : FinetuneAPI) (fuel : Nat) (eng : OpenAIFinetuneEngine) :
    Option (Except PyError Unit × OpenAIFinetuneEngine × List FinetuneEvent) :=
  match api.validate_json eng.data_path with
  | .error e => some (.error e, eng, [.validateCall eng.data_path])
  | .ok _ =>
    let file_name := basename eng.data_path
    match api.fileCreate eng.data_path with
    | .error e =>
      some (.error e, eng,
        [.validateCall eng.data_path, .fileUpload eng.data_path "fine-tune" file_name])
    | .ok output =>
      match launchLoop api output.id eng.base_model fuel 0 with
      | none => none
      | some (.ok job, tr) =>
        some (.ok (), { eng with start_job := some job },
          .validateCall eng.data_path ::
            .fileUpload eng.data_path "fine-tune" file_name :: tr)
      | some (.error e, tr) =>
        some (.error e, eng,
          .validateCall eng.data_path ::
            .fileUpload eng.data_path "fine-tune" file_name :: tr)

/-- `OpenAIFinetuneEngine.get_current_job`: fail with
`ValueError("Must call finetune() first")` when no job was ever stored,
otherwise re-fetch the job by its stored id and return the fresh
snapshot (any retrieval error propagates). -/
def get_current_job (api : FinetuneAPI) (eng : OpenAIFinetuneEngine) :
    Except PyError FineTuningJob :=
  match eng.start_job with
  | none => .error (.valueError "Must call finetune() first")
  | some j => api.jobRetrieve j.id

/-- A constructed model handle: `OpenAI(model=model_id, **model_kwargs)`.
The keyword configuration is kept fully generic (type `κ`) because the code
forwards it verbatim without inspecting it. -/
structure OpenAILLM (κ : Type) where
  model : String
  kwargs : κ
deriving Repr, DecidableEq

/-- `OpenAIFinetuneEngine.get_finetuned_model`: fetch the current job; fail
with a `ValueError` naming the job when `fine_tuned_model` is null; fail
with a `ValueError` citing the actual status when the status is not
`"succeeded"`; otherwise return an `OpenAILLM` bound to the model id with
the caller-supplied keyword configuration forwarded verbatim. -/
def get_finetuned_model {κ : Type} (api : FinetuneAPI) (eng : OpenAIFinetuneEngine)
    (model_kwargs : κ) : Except PyError (OpenAILLM κ) :=
  match get_current_job api eng with
  | .error e => .error e
  | .ok current_job =>
    let job_id := current_job.id
    let status := current_job.status
    match current_job.fine_tuned_model with
    | none =>
      .error (.valueError ("Job " ++ job_id ++ " does not have a finetuned model id ready yet."))
    | some model_id =>
      if status ≠ "succeeded" then
        .error (.valueError ("Job " ++ job_id ++ " has status " ++ status ++ ", cannot get model"))
      else
        .ok { model := model_id, kwargs := model_kwargs }

/-!
Embedding of `llama_index/llms/azure_openai.py`.

The ambient configuration read from the `openai` module's attributes
(`openai.api_base`, `openai.api_type`, `openai.api_version`, with the
credential in `openai.api_key`) is modelled as an explicit record passed to
the functions that consult it.
-/

/-- The ambient `openai` module configuration consulted by
`AzureOpenAI.validate_env`: `api_base` defaults to
`"https://api.openai.com/v1"` until `OPENAI_API_BASE` is set, `api_type`
holds the auth mode, `api_version` and `api_key` are `none` when unset. -/
structure AmbientOpenAIConfig where
  api_base : String
  api_type : String
  api_version : Option String
  api_key : Option String
deriving Repr, DecidableEq

/-- The state of a constructed `AzureOpenAI` instance, restricted to the
fields the embedded claims consult: the logical model name and the `engine`
deployment identifier.  Decoding parameters, retry count and callback
manager are forwarded to the base-class constructor unchanged and are not
modelled. -/
structure AzureOpenAI where
  model : String
  engine : String
deriving Repr, DecidableEq

/-- Actions visible while constructing an `AzureOpenAI`: `envValidation`
is the ambient-setting validation pass (`validate_env`), `superInit` is the
base-class constructor call.  No network call occurs at construction. -/
inductive AzureInitEvent where
  | envValidation
  | superInit
deriving Repr, DecidableEq

/-- `AzureOpenAI.validate_env` (lines 66-86): fail with a `ValueError`
naming `OPENAI_API_BASE` when the api base is still the non-Azure default,
then with one naming `OPENAI_API_TYPE` when the auth mode is not one of
`azure`/`azure_ad`/`azuread`, then with one naming `OPENAI_API_VERSION`
when the api version is unset; otherwise succeed.  (The `ImportError`
branch is not modelled: the `openai` module is assumed importable, as the
record `cfg` presupposes.) -/
def validate_env (cfg : AmbientOpenAIConfig) : Except PyError Unit :=
  if cfg.api_base = "https://api.openai.com/v1" then
    .error (.valueError ("You must set OPENAI_API_BASE to your Azure endpoint. " ++
      "It should look like https://YOUR_RESOURCE_NAME.openai.azure.com/"))
  else if ¬ (cfg.api_type = "azure" ∨ cfg.api_type = "azure_ad" ∨ cfg.api_type = "azuread") then
    .error (.valueError ("You must set OPENAI_API_TYPE to one of " ++
      "(`azure`, `azuread`, `azure_ad`) for Azure OpenAI."))
  else if cfg.api_version = none then
    .error (.valueError "You must set OPENAI_API_VERSION for Azure OpenAI.")
  else
    .ok ()

/-- `AzureOpenAI.__init__` (lines 39-64): fail with
`ValueError("You must specify an `engine` parameter.")` when no engine is
given — before `validate_env` runs and before anything else; then run
`validate_env`, propagating its failure; then call the base constructor.
Returns the outcome together with the trace of construction events. -/
def azureInit (cfg : AmbientOpenAIConfig) (model : String) (engine : Option String) :
    Except PyError AzureOpenAI × List AzureInitEvent :=
  match engine with
  | none => (.error (.valueError "You must specify an `engine` parameter."), [])
  | some eng =>
    match validate_env cfg with
    | .error e => (.error e, [.envValidation])
    | .ok _ =>
      (.ok { model := model, engine := eng }, [.envValidation, .superInit])

/-- Python values stored in a request-construction keyword mapping. -/
inductive PyVal where
  | vStr (s : String)
  | vNum (n : Int)
  | vNone
deriving Repr, DecidableEq

/-- A Python dict with string keys, as a partial map. -/
def PyDict : Type := String → Option PyVal

/-- `d[k] = v`: update the mapping at `k`. -/
def PyDict.set (d : PyDict) (k : String) (v : PyVal) : PyDict :=
  fun x => if x = k then some v else d x

/-- `d.pop(k)` with no default: remove `k`, raising `KeyError` when the key
is absent.  (Only the resulting dict is modelled; the popped value is
discarded by the source.) -/
def PyDict.popKey (d : PyDict) (k : String) : Except PyError PyDict :=
  match d k with
  | none => .error (.keyError k)
  | some _ => .ok (fun x => if x = k then none else d x)

/-- Modelled from the spec: the inherited request-construction keyword
mapping `OpenAI._model_kwargs` (its source is outside `src`).  Per the
spec, the base client's mapping carries the model's logical name under the
key `"model"` alongside the decoding parameters, here an arbitrary
remainder `rest`. -/
def openai_super_model_kwargs (model : String) (rest : PyDict) : PyDict :=
  PyDict.set rest "model" (.vStr model)

/-- `AzureOpenAI._model_kwargs` (lines 88-93): take the inherited mapping,
`pop` the `"model"` entry, set `"engine"` to the instance's deployment
identifier, and return the result. -/
def AzureOpenAI.model_kwargs (self : AzureOpenAI) (superKwargs : PyDict) :
    Except PyError PyDict :=
  match superKwargs.popKey "model" with
  | .error e => .error e
  | .ok d => .ok (d.set "engine" (.vStr self.engine))

/-!
Claim theorems.
-/

/-- C2: for every malformed dataset file, `finetune` fails with the
dataset-validation error propagated from the external validator and
performs no upload call — the trace contains only the (local) validation
step, no network event, and the engine state is unchanged. -/
theorem c2_validation_precedes_upload (api : FinetuneAPI) (fuel : Nat)
    (eng : OpenAIFinetuneEngine) (e : PyError)
    (h : api.validate_json eng.data_path = .error e) :
    finetune api fuel eng = some (.error e, eng, [.validateCall eng.data_path]) := by
  simp [finetune, h]

/-- Engine fixture: fresh orchestrator, no job yet. -/
def engC2 : OpenAIFinetuneEngine :=
  { base_model := "gpt-3.5-turbo", data_path := "data/train.jsonl",
    verbose := false, start_job := none }

/-- API fixture whose dataset validator rejects every file. -/
def apiC2 : FinetuneAPI where
  validate_json := fun _ => .error (.validationError "record 3 is malformed")
  fileCreate := fun _ => .ok { id := "file-1" }
  jobCreate := fun _ _ _ =>
    .ok { id := "ftjob-1", status := "pending", fine_tuned_model := none }
  jobRetrieve := fun _ => .error (.apiError "not found")

/-- Witness for C2 at a concrete malformed dataset. -/
theorem c2_validation_precedes_upload_witness :
    apiC2.validate_json engC2.data_path = .error (.validationError "record 3 is malformed") ∧
    finetune apiC2 5 engC2 =
      some (.error (.validationError "record 3 is malformed"), engC2,
        [.validateCall "data/train.jsonl"]) :=
  ⟨rfl, c2_validation_precedes_upload apiC2 5 engC2 _ rfl⟩

/-- C3: with no job submitted or resumed (`start_job` absent),
`get_current_job` fails with `ValueError("Must call finetune() first")`,
whatever the other fields of the state and whatever the remote API would
answer; with a job present it re-fetches the job by the stored id and
returns that fresh snapshot. -/
theorem c3_get_current_job_contract (api : FinetuneAPI) (eng : OpenAIFinetuneEngine) :
    (eng.start_job = none →
      get_current_job api eng = .error (.valueError "Must call finetune() first")) ∧
    (∀ j, eng.start_job = some j →
      get_current_job api eng = api.jobRetrieve j.id) := by
  refine ⟨fun h => ?_, fun j h => ?_⟩ <;> simp [get_current_job, h]

/-- Job fixture stored in the engine for C3 and a fresher remote snapshot. -/
def storedJobC3 : FineTuningJob :=
  { id := "ftjob-3", status := "pending", fine_tuned_model := none }

/-- Remote snapshot for C3: same job id, later status. -/
def freshJobC3 : FineTuningJob :=
  { id := "ftjob-3", status := "running", fine_tuned_model := none }

/-- API fixture for C3 whose retrieval answers with the fresher snapshot. -/
def apiC3 : FinetuneAPI where
  validate_json := fun _ => .ok ()
  fileCreate := fun _ => .ok { id := "file-3" }
  jobCreate := fun _ _ _ => .ok storedJobC3
  jobRetrieve := fun i =>
    if i = "ftjob-3" then .ok freshJobC3 else .error (.apiError "no such job")

/-- Engine fixtures for C3: one without a job and one holding `storedJobC3`. -/
def engC3empty : OpenAIFinetuneEngine :=
  { base_model := "gpt-3.5-turbo", data_path := "d.jsonl",
    verbose := true, start_job := none }

/-- Engine fixture for C3 with a stored job. -/
def engC3full : OpenAIFinetuneEngine :=
  { engC3empty with start_job := some storedJobC3 }

/-- Witness for C3 at concrete states, exercising both branches. -/
theorem c3_get_current_job_contract_witness :
    get_current_job apiC3 engC3empty = .error (.valueError "Must call finetune() first") ∧
    get_current_job apiC3 engC3full = apiC3.jobRetrieve "ftjob-3" :=
  ⟨(c3_get_current_job_contract apiC3 engC3empty).1 rfl,
   (c3_get_current_job_contract apiC3 engC3full).2 storedJobC3 rfl⟩

/-- C4: whenever the fetched job snapshot has a null `fine_tuned_model`,
`get_finetuned_model` fails with the model-not-ready `ValueError` naming
the job — regardless of the snapshot's `status` value and of the supplied
keyword configuration. -/
theorem c4_model_not_ready {κ : Type} (api : FinetuneAPI) (eng : OpenAIFinetuneEngine)
    (j : FineTuningJob) (kwargs : κ)
    (h : get_current_job api eng = .ok j) (hm : j.fine_tuned_model = none) :
    get_finetuned_model api eng kwargs =
      .error (.valueError ("Job " ++ j.id ++ " does not have a finetuned model id ready yet.")) := by
  simp [get_finetuned_model, h, hm]

/-- Job fixture for C4: even with status `"succeeded"`, the model id is null. -/
def jobC4 : FineTuningJob :=
  { id := "ftjob-4", status := "succeeded", fine_tuned_model := none }

/-- API fixture for C4. -/
def apiC4 : FinetuneAPI where
  validate_json := fun _ => .ok ()
  fileCreate := fun _ => .ok { id := "file-4" }
  jobCreate := fun _ _ _ => .ok jobC4
  jobRetrieve := fun _ => .ok jobC4

/-- Engine fixture for C4. -/
def engC4 : OpenAIFinetuneEngine :=
  { base_model := "gpt-3.5-turbo", data_path := "d.jsonl",
    verbose := false, start_job := some jobC4 }

/-- Witness for C4: null model id with status `"succeeded"` still fails. -/
theorem c4_model_not_ready_witness :
    get_finetuned_model apiC4 engC4 ([] : List (String × String)) =
      .error (.valueError "Job ftjob-4 does not have a finetuned model id ready yet.") :=
  c4_model_not_ready apiC4 engC4 jobC4 [] rfl rfl

/-- C5: whenever the fetched job snapshot carries a non-null model id but a
status other than `"succeeded"`, `get_finetuned_model` fails with the
job-not-succeeded `ValueError` citing the actual status value — the status
check overrides the presence of a model id. -/
theorem c5_status_check_authoritative {κ : Type} (api : FinetuneAPI)
    (eng : OpenAIFinetuneEngine) (j : FineTuningJob) (m : String) (kwargs : κ)
    (h : get_current_job api eng = .ok j) (hm : j.fine_tuned_model = some m)
    (hs : j.status ≠ "succeeded") :
    get_finetuned_model api eng kwargs =
      .error (.valueError ("Job " ++ j.id ++ " has status " ++ j.status ++ ", cannot get model")) := by
  simp [get_finetuned_model, h, hm, hs]

/-- Job fixture for C5: failed job that nonetheless carries a model id. -/
def jobC5 : FineTuningJob :=
  { id := "ftjob-5", status := "failed", fine_tuned_model := some "ft:abc123" }

/-- API fixture for C5. -/
def apiC5 : FinetuneAPI where
  validate_json := fun _ => .ok ()
  fileCreate := fun _ => .ok { id := "file-5" }
  jobCreate := fun _ _ _ => .ok jobC5
  jobRetrieve := fun _ => .ok jobC5

/-- Engine fixture for C5. -/
def engC5 : OpenAIFinetuneEngine :=
  { base_model := "gpt-3.5-turbo", data_path := "d.jsonl",
    verbose := false, start_job := some jobC5 }

/-- Witness for C5: status `"failed"` with a present model id fails,
citing `"failed"`. -/
theorem c5_status_check_authoritative_witness :
    get_finetuned_model apiC5 engC5 ([] : List (String × String)) =
      .error (.valueError "Job ftjob-5 has status failed, cannot get model") :=
  c5_status_check_authoritative apiC5 engC5 jobC5 "ft:abc123" [] rfl rfl (by decide)

/-- C6: when the fetched snapshot has status `"succeeded"` and a non-null
model id, `get_finetuned_model` returns a handle bound to exactly that
model id, with the caller-supplied keyword configuration — of arbitrary
type, uninspected — forwarded verbatim. -/
theorem c6_success_returns_bound_handle {κ : Type} (api : FinetuneAPI)
    (eng : OpenAIFinetuneEngine) (j : FineTuningJob) (m : String) (kwargs : κ)
    (h : get_current_job api eng = .ok j) (hs : j.status = "succeeded")
    (hm : j.fine_tuned_model = some m) :
    get_finetuned_model api eng kwargs = .ok { model := m, kwargs := kwargs } := by
  simp [get_finetuned_model, h, hm, hs]

/-- Job fixture for C6: succeeded job with model id `"ft:abc123"`. -/
def jobC6 : FineTuningJob :=
  { id := "ftjob-6", status := "succeeded", fine_tuned_model := some "ft:abc123" }

/-- API fixture for C6. -/
def apiC6 : FinetuneAPI where
  validate_json := fun _ => .ok ()
  fileCreate := fun _ => .ok { id := "file-6" }
  jobCreate := fun _ _ _ => .ok jobC6
  jobRetrieve := fun _ => .ok jobC6

/-- Engine fixture for C6. -/
def engC6 : OpenAIFinetuneEngine :=
  { base_model := "gpt-3.5-turbo", data_path := "d.jsonl",
    verbose := false, start_job := some jobC6 }

/-- Witness for C6: concrete extra configuration is forwarded unchanged. -/
theorem c6_success_returns_bound_handle_witness :
    get_finetuned_model apiC6 engC6 [("temperature", "0.2"), ("max_tokens", "64")] =
      .ok { model := "ft:abc123",
            kwargs := [("temperature", "0.2"), ("max_tokens", "64")] } :=
  c6_success_returns_bound_handle apiC6 engC6 jobC6 "ft:abc123"
    [("temperature", "0.2"), ("max_tokens", "64")] rfl rfl rfl

/-- C7: `finetune` is atomic with respect to the engine state — on every
failure path (validation failure, upload failure, non-retried submission
failure) the returned engine, `start_job` included, is exactly the engine
the call started from. -/
theorem c7_failure_preserves_state (api : FinetuneAPI) (fuel : Nat)
    (eng res : OpenAIFinetuneEngine) (e : PyError) (tr : List FinetuneEvent)
    (h : finetune api fuel eng = some (.error e, res, tr)) :
    res = eng := by
  unfold finetune at h
  split at h
  · simp_all
  · split at h
    · simp_all
    · split at h
      · simp_all
      · simp_all
      · simp_all

/-- API fixture for C7: upload always fails. -/
def apiC7 : FinetuneAPI where
  validate_json := fun _ => .ok ()
  fileCreate := fun _ => .error (.apiError "upload quota exceeded")
  jobCreate := fun _ _ _ =>
    .ok { id := "ftjob-7", status := "pending", fine_tuned_model := none }
  jobRetrieve := fun _ => .error (.apiError "not found")

/-- Engine fixture for C7, holding a previously stored job. -/
def engC7 : OpenAIFinetuneEngine :=
  { base_model := "gpt-3.5-turbo", data_path := "data/train.jsonl",
    verbose := false,
    start_job := some { id := "ftjob-old", status := "running", fine_tuned_model := none } }

/-- Witness for C7: a failed upload leaves the previously stored job in
place. -/
theorem c7_failure_preserves_state_witness :
    ∃ res tr,
      finetune apiC7 4 engC7 = some (.error (.apiError "upload quota exceeded"), res, tr) ∧
      res = engC7 :=
  ⟨engC7, [.validateCall "data/train.jsonl",
           .fileUpload "data/train.jsonl" "fine-tune" "train.jsonl"],
    rfl, c7_failure_preserves_state apiC7 4 engC7 engC7 _ _ rfl⟩

/-- C8: constructing the routing wrapper without a deployment identifier
fails with `ValueError("You must specify an `engine` parameter.")` for
every ambient configuration — valid or not — with an empty construction
trace: no ambient-setting validation is performed and no call of any kind
is made. -/
theorem c8_engine_is_mandatory (cfg : AmbientOpenAIConfig) (model : String) :
    azureInit cfg model none =
      (.error (.valueError "You must specify an `engine` parameter."), []) :=
  rfl

/-- Ambient configuration fixture: a fully Azure-shaped configuration whose
auth credential is missing (`api_key = none`). -/
def cfgNoKey : AmbientOpenAIConfig :=
  { api_base := "https://myresource.openai.azure.com/", api_type := "azure",
    api_version := some "2023-05-15", api_key := none }

/-- C9 counterexample: the auth credential is NOT validated at
construction.  With the API base, auth mode and API version set but the
credential missing, `validate_env` succeeds and construction completes
without any failure naming the credential — contradicting the claim that
every required ambient routing setting, the auth credential included, is
validated eagerly with a descriptive failure. -/
theorem c9_counterexample :
    cfgNoKey.api_key = none ∧
    validate_env cfgNoKey = .ok () ∧
    azureInit cfgNoKey "gpt-35-turbo" (some "my-deployment") =
      (.ok { model := "gpt-35-turbo", engine := "my-deployment" },
       [.envValidation, .superInit]) :=
  ⟨rfl, rfl, rfl⟩

/-- C9 (amended): at construction, the ambient API base, auth mode and API
version are validated eagerly, each failure being a descriptive
`ValueError` naming the offending setting, and a `validate_env` failure
aborts construction; the auth credential, however, is never consulted —
`validate_env` is invariant under any change of `api_key`. -/
theorem c9_eager_env_validation (cfg : AmbientOpenAIConfig) :
    (cfg.api_base = "https://api.openai.com/v1" →
      validate_env cfg = .error (.valueError
        ("You must set OPENAI_API_BASE to your Azure endpoint. " ++
         "It should look like https://YOUR_RESOURCE_NAME.openai.azure.com/"))) ∧
    (cfg.api_base ≠ "https://api.openai.com/v1" →
      ¬ (cfg.api_type = "azure" ∨ cfg.api_type = "azure_ad" ∨ cfg.api_type = "azuread") →
      validate_env cfg = .error (.valueError
        ("You must set OPENAI_API_TYPE to one of " ++
         "(`azure`, `azuread`, `azure_ad`) for Azure OpenAI."))) ∧
    (cfg.api_base ≠ "https://api.openai.com/v1" →
      (cfg.api_type = "azure" ∨ cfg.api_type = "azure_ad" ∨ cfg.api_type = "azuread") →
      cfg.api_version = none →
      validate_env cfg = .error (.valueError
        "You must set OPENAI_API_VERSION for Azure OpenAI.")) ∧
    (cfg.api_base ≠ "https://api.openai.com/v1" →
      (cfg.api_type = "azure" ∨ cfg.api_type = "azure_ad" ∨ cfg.api_type = "azuread") →
      cfg.api_version ≠ none →
      validate_env cfg = .ok ()) ∧
    (∀ k, validate_env { cfg with api_key := k } = validate_env cfg) ∧
    (∀ model engine e, validate_env cfg = .error e →
      azureInit cfg model (some engine) = (.error e, [.envValidation])) := by
  refine ⟨fun h1 => ?_, fun h1 h2 => ?_, fun h1 h2 h3 => ?_, fun h1 h2 h3 => ?_,
    fun k => ?_, fun model engine e he => ?_⟩
  · simp [validate_env, h1]
  · simp [validate_env, h1, h2]
  · simp [validate_env, h1, h2, h3]
  · simp [validate_env, h1, h2, h3]
  · simp [validate_env]
  · simp [azureInit, he]

/-- Ambient configuration fixture: everything left at the non-Azure
defaults. -/
def cfgDefaults : AmbientOpenAIConfig :=
  { api_base := "https://api.openai.com/v1", api_type := "open_ai",
    api_version := none, api_key := none }

/-- Witness for the amended C9: with the default (non-Azure) ambient
configuration, construction fails eagerly with the `ValueError` naming
`OPENAI_API_BASE`. -/
theorem c9_eager_env_validation_witness :
    validate_env cfgDefaults = .error (.valueError
      ("You must set OPENAI_API_BASE to your Azure endpoint. " ++
       "It should look like https://YOUR_RESOURCE_NAME.openai.azure.com/")) ∧
    azureInit cfgDefaults "gpt-35-turbo" (some "my-deployment") =
      (.error (.valueError
        ("You must set OPENAI_API_BASE to your Azure endpoint. " ++
         "It should look like https://YOUR_RESOURCE_NAME.openai.azure.com/")),
       [.envValidation]) := by
  have h := c9_eager_env_validation cfgDefaults
  exact ⟨h.1 rfl, h.2.2.2.2.2 "gpt-35-turbo" "my-deployment" _ (h.1 rfl)⟩

/-- C10: over the inherited request-construction mapping (which carries the
model name under `"model"`), the routing wrapper's mapping never contains a
`"model"` entry, always contains an `"engine"` entry equal to the
instance's deployment identifier, and leaves every other entry of the
inherited mapping unchanged. -/
theorem c10_model_kwargs_frame (self : AzureOpenAI) (rest : PyDict) :
    ∃ d, self.model_kwargs (openai_super_model_kwargs self.model rest) = .ok d ∧
      d "model" = none ∧
      d "engine" = some (.vStr self.engine) ∧
      ∀ k, k ≠ "model" → k ≠ "engine" →
        d k = openai_super_model_kwargs self.model rest k := by
  refine ⟨PyDict.set
      (fun x => if x = "model" then none else openai_super_model_kwargs self.model rest x)
      "engine" (.vStr self.engine), ?_, ?_, ?_, ?_⟩
  · simp [AzureOpenAI.model_kwargs, PyDict.popKey, openai_super_model_kwargs, PyDict.set]
  · simp [PyDict.set]
  · simp [PyDict.set]
  · intro k hk1 hk2
    simp [PyDict.set, hk1, hk2]

/-- Instance fixture for C10. -/
def azureC10 : AzureOpenAI :=
  { model := "gpt-35-turbo", engine := "my-deployment" }

/-- Remainder of the inherited mapping for the C10 witness: one decoding
parameter. -/
def restC10 : PyDict :=
  fun k => if k = "temperature" then some (.vNum 0) else none

/-- Witness for C10 at a concrete instance and inherited mapping. -/
theorem c10_model_kwargs_frame_witness :
    ∃ d, azureC10.model_kwargs (openai_super_model_kwargs azureC10.model restC10) = .ok d ∧
      d "model" = none ∧
      d "engine" = some (.vStr "my-deployment") ∧
      ∀ k, k ≠ "model" → k ≠ "engine" →
        d k = openai_super_model_kwargs azureC10.model restC10 k :=
  c10_model_kwargs_frame azureC10 restC10

/-- C1 (amended): the retry policy of the job-launch loop.  (i) A
job-creation failure outside the invalid-request exception class stops the
loop at once: the error propagates with no sleep and no further attempt.
(ii) A failure of the invalid-request class — whatever its message — makes
the loop sleep exactly 60 seconds and move on to the next attempt.
(iii) There is no retry cap: if every attempt fails with an invalid-request
error, the loop never stops, whatever the fuel and starting attempt. -/
theorem c1_retry_policy (api : FinetuneAPI) (fileId model : String) (fuel k : Nat) :
    (∀ e, api.jobCreate k fileId model = .error e → e.isInvalidRequest = false →
      launchLoop api fileId model (fuel + 1) k =
        some (.error e, [.jobCreate fileId model])) ∧
    (∀ e, api.jobCreate k fileId model = .error e → e.isInvalidRequest = true →
      launchLoop api fileId model (fuel + 1) k =
        Option.map (fun r => (r.1, .jobCreate fileId model :: .sleepSecs 60 :: r.2))
          (launchLoop api fileId model fuel (k + 1))) ∧
    ((∀ j, ∃ msg, api.jobCreate j fileId model = .error (.invalidRequestError msg)) →
      ∀ f k', launchLoop api fileId model f k' = none) := by
  refine ⟨fun e he hn => ?_, fun e he hi => ?_, fun hall f => ?_⟩
  · simp [launchLoop, he, hn]
  · simp only [launchLoop, he, hi, if_true]
    cases hl : launchLoop api fileId model fuel (k + 1) with
    | none => simp
    | some r => obtain ⟨rr, rtr⟩ := r; simp
  · induction f with
    | zero => intro k'; simp [launchLoop]
    | succ n ih =>
      intro k'
      obtain ⟨msg, hmsg⟩ := hall k'
      simp [launchLoop, hmsg, PyError.isInvalidRequest, ih (k' + 1)]

/-- Job fixture for C1. -/
def jobC1 : FineTuningJob :=
  { id := "ftjob-1", status := "pending", fine_tuned_model := none }

/-- API fixture for C1: the first job-creation attempt fails with an
invalid-request error whose cause is a missing model — not file
readiness — and the second attempt succeeds. -/
def apiC1 : FinetuneAPI where
  validate_json := fun _ => .ok ()
  fileCreate := fun _ => .ok { id := "file-1c" }
  jobCreate := fun n _ _ =>
    if n = 0 then .error (.invalidRequestError "The model gpt-zz does not exist")
    else .ok jobC1
  jobRetrieve := fun _ => .error (.apiError "unused")

/-- Engine fixture for C1. -/
def engC1 : OpenAIFinetuneEngine :=
  { base_model := "gpt-3.5-turbo", data_path := "data/train.jsonl",
    verbose := false, start_job := none }

/-- Witness for the amended C1, matching the spec's simulation: attempts
are retried through the invalid-request class with a 60-second sleep in
between, and the first successful attempt's job is the loop's result. -/
theorem c1_retry_policy_witness :
    launchLoop apiC1 "file-1c" "gpt-3.5-turbo" 2 0 =
      some (.ok jobC1,
        [.jobCreate "file-1c" "gpt-3.5-turbo", .sleepSecs 60,
         .jobCreate "file-1c" "gpt-3.5-turbo"]) :=
  ((c1_retry_policy apiC1 "file-1c" "gpt-3.5-turbo" 1 0).2.1
    (.invalidRequestError "The model gpt-zz does not exist") rfl rfl).trans rfl

/-- C1 counterexample: the loop does not retry only for the file-not-ready
condition.  At attempt 0 the server answers with an invalid-request error
whose cause is a missing model — `isFileNotReady` is `false` for it — yet
`finetune` does not propagate it: it sleeps 60 seconds, retries, and the
second attempt's job is stored, contradicting the claim that every failure
other than file-not-ready propagates immediately without retry. -/
theorem c1_counterexample :
    PyError.isFileNotReady (.invalidRequestError "The model gpt-zz does not exist") = false ∧
    apiC1.jobCreate 0 "file-1c" "gpt-3.5-turbo" =
      .error (.invalidRequestError "The model gpt-zz does not exist") ∧
    finetune apiC1 2 engC1 =
      some (.ok (), { engC1 with start_job := some jobC1 },
        [.validateCall "data/train.jsonl",
         .fileUpload "data/train.jsonl" "fine-tune" "train.jsonl",
         .jobCreate "file-1c" "gpt-3.5-turbo", .sleepSecs 60,
         .jobCreate "file-1c" "gpt-3.5-turbo"]) :=
  ⟨rfl, rfl, rfl⟩
